import Mathlib

/-!
Shallow embedding of the baselog-api core (src/src/core and src/src/utils),
together with theorems settling the frozen claims about it.

Modelling conventions:
* SQLAlchemy rows become Lean structures; UUID primary keys and timestamps are
  modelled as `Nat` drawn from a strictly increasing `next_id` counter in the
  database state, so `ORDER BY created_at DESC` over rows kept in insertion
  order is list reversal.
* The database session is explicit state: a mutating operation takes a `DB`
  and returns the result paired with the successor `DB`; a caught exception
  followed by `db.rollback()` returns the original `DB` unchanged.
* Schema constraints declared in src/src/models are enforced by the commit of
  each insert/update: the ForeignKeys (`api_keys.project_id`,
  `logs.project_id`, `events.project_id` to projects.id, `projects.owner_id`
  to users.id), `unique=True` on `api_keys.project_id`, and the String length
  bounds (`api_keys.key_hash` 64, `api_keys.masked_key` 32, `logs.level` 50,
  `logs.category` 255, `events.event_type` 255, `events.event_status` 50) on
  the columns each statement writes; a violated constraint raises, the
  handler rolls back and returns the operation's error value. The delete of a
  project with an API key row or event rows raises on their non-nullable
  ForeignKey (no delete cascade is configured for them).
* Python `str.lower`/`str.upper` are modelled for ASCII text (`pyLower`,
  `pyUpper`); every string the claims exercise is ASCII.
* `secrets.choice` randomness is modelled by deriving the random part of a key
  from the state counter; SHA-256 (collision resistant) is modelled as an
  injective tagging function.
-/

namespace Baselog

/-- Models fastapi.HTTPException as the pair of its status_code and detail. -/
structure HTTPException where
  status_code : Nat
  detail : String
deriving DecidableEq

/-- Result container from src/utils/result.py (variants Ok / Err). -/
inductive Result (T E : Type) where
  | Ok : T → Result T E
  | Err : E → Result T E
deriving DecidableEq

/-- Result.is_ok from src/utils/result.py. -/
def Result.is_ok : Result T E → Bool
  | .Ok _ => true
  | .Err _ => false

/-- Result.is_err from src/utils/result.py. -/
def Result.is_err : Result T E → Bool
  | .Ok _ => false
  | .Err _ => true

/-- Maybe container from src/utils/maybe.py (variants Some / Nothing). -/
inductive Maybe (T : Type) where
  | Some : T → Maybe T
  | Nothing : Maybe T
deriving DecidableEq

/-- Maybe.is_some from src/utils/maybe.py. -/
def Maybe.is_some : Maybe T → Bool
  | .Some _ => true
  | .Nothing => false

/-- Maybe.is_nothing from src/utils/maybe.py. -/
def Maybe.is_nothing : Maybe T → Bool
  | .Some _ => false
  | .Nothing => true

/-- ASCII case table: each pair is an uppercase letter with its lowercase form.
Models the character-level behaviour of Python str.upper/str.lower on the
ASCII strings the core manipulates. -/
def asciiCasePairs : List (Char × Char) :=
  [('A','a'), ('B','b'), ('C','c'), ('D','d'), ('E','e'), ('F','f'), ('G','g'),
   ('H','h'), ('I','i'), ('J','j'), ('K','k'), ('L','l'), ('M','m'), ('N','n'),
   ('O','o'), ('P','p'), ('Q','q'), ('R','r'), ('S','s'), ('T','t'), ('U','u'),
   ('V','v'), ('W','w'), ('X','x'), ('Y','y'), ('Z','z')]

/-- Lowercase one character (ASCII model of Python str.lower). -/
def pyLowerChar (c : Char) : Char :=
  match asciiCasePairs.find? (fun p => p.1 == c) with
  | some p => p.2
  | none => c

/-- Uppercase one character (ASCII model of Python str.upper). -/
def pyUpperChar (c : Char) : Char :=
  match asciiCasePairs.find? (fun p => p.2 == c) with
  | some p => p.1
  | none => c

/-- Python s.strip() with no argument: removes leading and trailing
whitespace. -/
def pyStrip (s : String) : String :=
  String.mk (((s.data.dropWhile Char.isWhitespace).reverse.dropWhile
    Char.isWhitespace).reverse)

/-- Python s.lower() on ASCII strings. -/
def pyLower (s : String) : String := String.mk (s.data.map pyLowerChar)

/-- Python s.upper() on ASCII strings. -/
def pyUpper (s : String) : String := String.mk (s.data.map pyUpperChar)

/-- API_KEY_PREFIX constant of src/utils/api_key.py; its value "sk_proj_" has
length 8. -/
def apiKeyPfx : String := "sk_proj_"

/-- API_KEY_LENGTH constant of src/utils/api_key.py. -/
def API_KEY_LENGTH : Nat := 32

/-- hash_api_key of src/utils/api_key.py. The SHA-256 hexdigest is modelled as
an injective tagging function (collision-resistance idealisation). -/
def hash_api_key (key : String) : String := "sha256$" ++ key

/-- verify_api_key of src/utils/api_key.py. -/
def verify_api_key (key key_hash : String) : Bool := hash_api_key key == key_hash

/-- create_masked_key of src/utils/api_key.py: below 16 characters
(len(API_KEY_PREFIX) + 8) the key is returned as is; otherwise the result is
full_key[:8] ++ full_key[8:12] ++ "*" * (len - 16) ++ full_key[-4:], where
full_key[-4:] for a string of length n >= 4 is drop (n - 4). -/
def create_masked_key (full_key : String) : String :=
  if full_key.length < apiKeyPfx.length + 8 then full_key
  else
    let cs := full_key.data
    let pfx := cs.take apiKeyPfx.length
    let first_part := (cs.drop apiKeyPfx.length).take 4
    let last_part := cs.drop (cs.length - 4)
    let masked_part := List.replicate (cs.length - apiKeyPfx.length - 8) '*'
    String.mk (pfx ++ first_part ++ masked_part ++ last_part)

/-- generate_api_key of src/utils/api_key.py. The API_KEY_LENGTH (32) random
alphanumeric characters drawn with secrets.choice are modelled by printing a
seed supplied from the database state counter, left-padded with zeros to the
fixed length of 32, so the full key is 40 characters long as in the program. -/
def generate_api_key (seed : Nat) : String × String × String :=
  let digits := Nat.toDigits 10 seed
  let random_part := String.mk (List.replicate (API_KEY_LENGTH - digits.length) '0' ++ digits)
  let full_key := apiKeyPfx ++ random_part
  let key_hash := hash_api_key full_key
  let masked_key := create_masked_key full_key
  (full_key, key_hash, masked_key)

/-- Row of the users table (src/models/user.py); UUID id and timestamps are
modelled as Nat, role/status/created_at columns are not claim-relevant. -/
structure UserRow where
  id : Nat
  email : String
  password_hash : String
  display_name : String
  last_login : Option Nat
deriving DecidableEq

/-- Row of the projects table (src/models/project.py). -/
structure ProjectRow where
  id : Nat
  name : String
  owner_id : Nat
  created_at : Nat
deriving DecidableEq

/-- Row of the api_keys table (src/models/api_key.py); the schema declares
project_id as ForeignKey("projects.id") with unique=True. -/
structure APIKeyRow where
  id : Nat
  project_id : Nat
  key_hash : String
  masked_key : String
  description : Option String
  is_active : Bool
  created_at : Nat
deriving DecidableEq

/-- Row of the logs table (src/models/log.py). -/
structure LogRow where
  id : Nat
  project_id : Nat
  level : String
  category : Option String
  message : String
  tags : Option (List String)
  created_at : Nat
deriving DecidableEq

/-- Row of the events table (src/models/event.py); the JSONB metadata document
is modelled as an association list. -/
structure EventRow where
  id : Nat
  project_id : Nat
  event_type : String
  event_status : Option String
  event_metadata : List (String × String)
  created_at : Nat
deriving DecidableEq

/-- Database state: the five tables, rows kept in insertion order, plus the
counter supplying fresh ids and timestamps. -/
structure DB where
  users : List UserRow
  projects : List ProjectRow
  api_keys : List APIKeyRow
  logs : List LogRow
  events : List EventRow
  next_id : Nat
deriving DecidableEq

/-- Commit of an INSERT into api_keys, enforcing the schema of
src/models/api_key.py: project_id is a ForeignKey("projects.id") and carries
unique=True, key_hash is String(64) and masked_key is String(32), so the
commit raises (here: none) unless the project exists, no api_keys row —
active or not — exists for it, and both strings fit their columns. Since the
generated masked key is 40 characters long, the String(32) bound makes every
real insert fail. -/
def apiKeysInsert (row : APIKeyRow) (db : DB) : Option DB :=
  if db.projects.any (fun p => p.id == row.project_id)
      && !(db.api_keys.any (fun k => k.project_id == row.project_id))
      && row.key_hash.length ≤ 64
      && row.masked_key.length ≤ 32 then
    some { db with api_keys := db.api_keys ++ [row], next_id := db.next_id + 1 }
  else none

/-- create_api_key of src/core/api_key.py: generates a key, inserts the row
with is_active=True and commits; any exception is caught, the session is
rolled back and None is returned. The commit raises for a missing project
(ForeignKey), an existing key row (unique project_id) and the 40-character
masked key overflowing its String(32) column. Note the plaintext full_key is
discarded: only the ORM row is returned. -/
def create_api_key (project_id : Nat) (db : DB) (description : Option String) :
    Option APIKeyRow × DB :=
  let gen := generate_api_key db.next_id
  let api_key : APIKeyRow :=
    { id := db.next_id, project_id := project_id, key_hash := gen.2.1,
      masked_key := gen.2.2, description := description,
      is_active := true, created_at := db.next_id }
  match apiKeysInsert api_key db with
  | some db2 => (some api_key, db2)
  | none => (none, db)

/-- get_project_api_key of src/core/api_key.py: first active key of the
project. -/
def get_project_api_key (project_id : Nat) (db : DB) : Option APIKeyRow :=
  db.api_keys.find? (fun k => k.project_id == project_id && k.is_active)

/-- get_api_key_by_key_hash of src/core/api_key.py: first active key with the
given hash. -/
def get_api_key_by_key_hash (key_hash : String) (db : DB) : Option APIKeyRow :=
  db.api_keys.find? (fun k => k.key_hash == key_hash && k.is_active)

/-- Helper for deactivate_api_key: .first() row of the project that is active
gets is_active set to False; none when no such row exists. -/
def deactivateFirstActive (project_id : Nat) : List APIKeyRow → Option (List APIKeyRow)
  | [] => none
  | k :: ks =>
    if k.project_id == project_id && k.is_active then
      some ({ k with is_active := false } :: ks)
    else
      (deactivateFirstActive project_id ks).map (k :: ·)

/-- deactivate_api_key of src/core/api_key.py: flips the first active key of
the project to inactive and commits, returning True; returns False when no
active key exists. Exceptions are caught and also yield False. -/
def deactivate_api_key (project_id : Nat) (db : DB) : Bool × DB :=
  match deactivateFirstActive project_id db.api_keys with
  | some ks => (true, { db with api_keys := ks })
  | none => (false, db)

/-- regenerate_api_key of src/core/api_key.py: deactivate (whose commit is
durable) followed by create_api_key; the except branch only wraps exceptions
that escape the two calls, which both catch their own. -/
def regenerate_api_key (project_id : Nat) (db : DB) (description : Option String) :
    Option APIKeyRow × DB :=
  let r1 := deactivate_api_key project_id db
  create_api_key project_id r1.2 description

/-- get_all_active_api_keys of src/core/api_key.py. -/
def get_all_active_api_keys (db : DB) : List APIKeyRow :=
  db.api_keys.filter (fun k => k.is_active)

/-- The unified HTTP 404 raised by the ownership guard of src/core/project.py
for both a nonexistent project and a project owned by another user. -/
def projectNotFoundErr : HTTPException :=
  { status_code := 404, detail := "Project not found or access denied" }

/-- The HTTP 400 conflict raised by create_project / update_project when the
name is already taken by a project of the same owner. -/
def projectNameConflictErr : HTTPException :=
  { status_code := 400, detail := "Project name already exists for this user" }

/-- check_project_ownership of src/core/project.py: first row with the given
id and owner; Err projectNotFoundErr otherwise. -/
def check_project_ownership (project_id user_id : Nat) (db : DB) :
    Result Bool HTTPException :=
  match db.projects.find? (fun p => p.id == project_id && p.owner_id == user_id) with
  | some _ => .Ok true
  | none => .Err projectNotFoundErr

/-- is_project_name_available of src/core/project.py: no project of the given
owner already carries the name (optionally excluding one row by id). -/
def is_project_name_available (name : String) (user_id : Nat) (db : DB)
    (exclude_id : Option Nat) : Bool :=
  let q := db.projects.filter (fun p => p.name == name && p.owner_id == user_id)
  let q2 : List ProjectRow := match exclude_id with
    | some eid => q.filter (fun p => p.id != eid)
    | none => q
  q2.isEmpty

/-- create_project of src/core/project.py; project_data is the dict whose
"name" entry the function reads. The commit enforces the projects.owner_id
ForeignKey("users.id") of src/models/project.py, so an owner missing from the
users table raises and the handler returns the 500 error. -/
def create_project (name : String) (db : DB) (owner : UserRow) :
    Result ProjectRow HTTPException × DB :=
  if !is_project_name_available name owner.id db none then
    (.Err projectNameConflictErr, db)
  else if db.users.any (fun w => w.id == owner.id) then
    let new_project : ProjectRow :=
      { id := db.next_id, name := name, owner_id := owner.id, created_at := db.next_id }
    (.Ok new_project,
     { db with projects := db.projects ++ [new_project], next_id := db.next_id + 1 })
  else
    (.Err { status_code := 500, detail := "Failed to create project" }, db)

/-- get_projects_by_user of src/core/project.py: projects of the owner,
created_at descending. -/
def get_projects_by_user (user_id : Nat) (db : DB) :
    Result (List ProjectRow) HTTPException :=
  .Ok ((db.projects.filter (fun p => p.owner_id == user_id)).reverse)

/-- Values of the LogLevel enumeration of src/models/log.py. -/
def logLevelValues : List String := ["info", "debug", "warning", "error", "critical"]

/-- validate_log_level of src/core/log.py: level.lower() must be one of the
LogLevel values. -/
def validate_log_level (level : String) : Bool :=
  logLevelValues.contains (pyLower level)

/-- Entries of the log_data dict passed to create_log; "message" is read
unconditionally there, the other keys are optional. -/
structure LogData where
  level : Option String
  category : Option String
  message : String
  tags : Option (List String)
deriving DecidableEq

/-- create_log of src/core/log.py: validates the level when supplied, then
inserts with level log_data.get("level", "info").upper(). The commit enforces
the logs schema of src/models/log.py — the project_id ForeignKey, the
level String(50) column and the category String(255) column — so a missing
project or an over-long written value raises and the handler returns the 500
error. -/
def create_log (project_id : Nat) (log_data : LogData) (db : DB) :
    Result LogRow HTTPException × DB :=
  if log_data.level.isSome && !validate_log_level (log_data.level.getD "") then
    (.Err { status_code := 400,
            detail := "Invalid log level. Must be: info, debug, warning, error, critical" }, db)
  else
    let new_log : LogRow :=
      { id := db.next_id, project_id := project_id,
        level := pyUpper (log_data.level.getD "info"),
        category := log_data.category, message := log_data.message,
        tags := log_data.tags, created_at := db.next_id }
    if db.projects.any (fun p => p.id == project_id)
        && new_log.level.length ≤ 50
        && (match new_log.category with | some c => c.length ≤ 255 | none => true) then
      (.Ok new_log, { db with logs := db.logs ++ [new_log], next_id := db.next_id + 1 })
    else
      (.Err { status_code := 500, detail := "Failed to create log" }, db)

/-- get_log_by_id of src/core/log.py: the log joined against its project row
filtered by the caller as owner; the unified 404 otherwise. -/
def get_log_by_id (log_id user_id : Nat) (db : DB) : Result LogRow HTTPException :=
  match db.logs.find? (fun l => l.id == log_id &&
      db.projects.any (fun p => p.id == l.project_id && p.owner_id == user_id)) with
  | some l => .Ok l
  | none => .Err { status_code := 404, detail := "Log not found or access denied" }

/-- Entries of the log_data dict passed to update_log; an outer some means the
key is present, the inner value is the (possibly null) dict value. -/
structure LogUpdate where
  level : Option String
  category : Option (Option String)
  message : Option String
  tags : Option (Option (List String))
deriving DecidableEq

/-- update_log of src/core/log.py: resolves the log through the owner join,
validates the level when supplied, then stores level log_data["level"].lower()
and the other supplied fields and commits. The UPDATE writes the assigned
columns, whose declared bounds (level String(50), category String(255) in
src/models/log.py) make the commit raise — and the handler return the 500
error — for over-long supplied values. -/
def update_log (log_id : Nat) (log_data : LogUpdate) (user_id : Nat) (db : DB) :
    Result LogRow HTTPException × DB :=
  match get_log_by_id log_id user_id db with
  | .Err e => (.Err e, db)
  | .Ok log =>
    if log_data.level.isSome && !validate_log_level (log_data.level.getD "") then
      (.Err { status_code := 400,
              detail := "Invalid log level. Must be: info, debug, warning, error, critical" }, db)
    else
      let log2 : LogRow :=
        { log with
          level := match log_data.level with
            | some lv => pyLower lv
            | none => log.level,
          category := log_data.category.getD log.category,
          message := log_data.message.getD log.message,
          tags := log_data.tags.getD log.tags }
      if (match log_data.level with | some lv => (pyLower lv).length ≤ 50 | none => true)
          && (match log_data.category with | some (some c) => c.length ≤ 255 | _ => true) then
        (.Ok log2,
         { db with logs := db.logs.map (fun l => if l.id == log.id then log2 else l) })
      else
        (.Err { status_code := 500, detail := "Failed to update log" }, db)

/-- delete_log of src/core/log.py. -/
def delete_log (log_id user_id : Nat) (db : DB) : Result Bool HTTPException × DB :=
  match get_log_by_id log_id user_id db with
  | .Err e => (.Err e, db)
  | .Ok log =>
    (.Ok true, { db with logs := db.logs.filter (fun l => l.id != log.id) })

/-- get_logs_by_level of src/core/log.py: level validation, ownership check,
then the project's logs whose stored level equals level.lower(), created_at
descending. -/
def get_logs_by_level (project_id : Nat) (level : String) (user_id : Nat)
    (db : DB) : Result (List LogRow) HTTPException :=
  if !validate_log_level level then
    .Err { status_code := 400, detail := "Invalid log level" }
  else
    match check_project_ownership project_id user_id db with
    | .Err e => .Err e
    | .Ok _ =>
      .Ok ((db.logs.filter
        (fun l => l.project_id == project_id && l.level == pyLower level)).reverse)

/-- Characters admitted (besides alphanumerics) by the event format and
status checks of src/core/event.py. -/
def eventExtraChars : List Char := ['_', '-', ' ', '.']

/-- validate_event_format of src/core/event.py (the definition at the bottom
of the module shadows the identical import from src/models/event.py): at most
255 characters, nonempty after strip, and every stripped character
alphanumeric or one of underscore, hyphen, space, dot. -/
def validate_event_format (event_type : String) : Bool :=
  event_type.length ≤ 255
    && !(pyStrip event_type).data.isEmpty
    && (pyStrip event_type).data.all (fun c => c.isAlphanum || eventExtraChars.contains c)

/-- validate_status_transition of src/core/event.py: any status may replace a
missing one, clearing is always allowed, and otherwise the new status must be
at most 50 characters, nonempty after strip, with the same character set as
the event format check. -/
def validate_status_transition (old_status : Option String)
    (new_status : Option String) : Bool :=
  match old_status with
  | none => true
  | some _ =>
    match new_status with
    | none => true
    | some ns =>
      ns.length ≤ 50
        && !(pyStrip ns).data.isEmpty
        && (pyStrip ns).data.all (fun c => c.isAlphanum || eventExtraChars.contains c)

/-- Entries of the event_data dict used by create_event and update_event; an
outer some on event_status means the key is present, the inner value is the
(possibly null) dict value. -/
structure EventData where
  event_type : Option String
  event_status : Option (Option String)
  event_metadata : Option (List (String × String))
deriving DecidableEq

/-- create_event of src/core/event.py: validates event_type when present, then
reads event_data["event_type"] (KeyError when absent becomes the 500 error),
stores event_data.get("event_status") — absent and null collapse to null — and
commits. The commit enforces the events schema of src/models/event.py: the
project_id ForeignKey, event_type String(255) and event_status String(50), so
a missing project or a status longer than 50 characters raises and yields the
500 error. No validation is applied to the status at creation. -/
def create_event (project_id : Nat) (event_data : EventData) (db : DB) :
    Result EventRow HTTPException × DB :=
  if event_data.event_type.isSome
      && !validate_event_format (event_data.event_type.getD "") then
    (.Err { status_code := 400,
            detail := "Invalid event type format. Must be 255 characters or less and contain only alphanumeric, underscore, hyphen, space, and dot characters" }, db)
  else
    match event_data.event_type with
    | none => (.Err { status_code := 500, detail := "Failed to create event" }, db)
    | some et =>
      let new_event : EventRow :=
        { id := db.next_id, project_id := project_id, event_type := et,
          event_status := event_data.event_status.join,
          event_metadata := event_data.event_metadata.getD [],
          created_at := db.next_id }
      if db.projects.any (fun p => p.id == project_id)
          && new_event.event_type.length ≤ 255
          && (match new_event.event_status with | some t => t.length ≤ 50 | none => true) then
        (.Ok new_event,
         { db with events := db.events ++ [new_event], next_id := db.next_id + 1 })
      else
        (.Err { status_code := 500, detail := "Failed to create event" }, db)

/-- get_event_by_id of src/core/event.py: the event joined against its project
row filtered by the caller as owner; the unified 404 otherwise. -/
def get_event_by_id (event_id user_id : Nat) (db : DB) :
    Result EventRow HTTPException :=
  match db.events.find? (fun ev => ev.id == event_id &&
      db.projects.any (fun p => p.id == ev.project_id && p.owner_id == user_id)) with
  | some ev => .Ok ev
  | none => .Err { status_code := 404, detail := "Event not found or access denied" }

/-- update_event of src/core/event.py: resolves the event through the owner
join, validates event_type when present, validates the status transition when
the "event_status" key is present (against the value, possibly null), then
stores the supplied fields and commits. The UPDATE writes the assigned
columns, whose declared bounds (event_type String(255), event_status
String(50) in src/models/event.py) make the commit raise — and the handler
return the 500 error — for over-long supplied values; this is reachable for
the status, which the transition validation waves through unchecked when the
event has no current status. -/
def update_event (event_id : Nat) (event_data : EventData) (user_id : Nat)
    (db : DB) : Result EventRow HTTPException × DB :=
  match get_event_by_id event_id user_id db with
  | .Err e => (.Err e, db)
  | .Ok ev =>
    if event_data.event_type.isSome
        && !validate_event_format (event_data.event_type.getD "") then
      (.Err { status_code := 400, detail := "Invalid event type format" }, db)
    else
      if event_data.event_status.isSome
          && !validate_status_transition ev.event_status
                (event_data.event_status.getD none) then
        (.Err { status_code := 400, detail := "Invalid status transition" }, db)
      else
        let ev2 : EventRow :=
          { ev with
            event_type := event_data.event_type.getD ev.event_type,
            event_status := match event_data.event_status with
              | some ns => ns
              | none => ev.event_status,
            event_metadata := event_data.event_metadata.getD ev.event_metadata }
        if (match event_data.event_type with | some et => et.length ≤ 255 | none => true)
            && (match event_data.event_status with
                | some (some t) => t.length ≤ 50 | _ => true) then
          (.Ok ev2,
           { db with events := db.events.map (fun e => if e.id == ev.id then ev2 else e) })
        else
          (.Err { status_code := 500, detail := "Failed to update event" }, db)

/-- delete_event of src/core/event.py. -/
def delete_event (event_id user_id : Nat) (db : DB) :
    Result Bool HTTPException × DB :=
  match get_event_by_id event_id user_id db with
  | .Err e => (.Err e, db)
  | .Ok ev =>
    (.Ok true, { db with events := db.events.filter (fun e => e.id != ev.id) })

/-- Modelled from the spec: the password hasher imported by src/core/auth.py
from src.utils.hash, a module not present under src/. §6 calls it a one-way,
salted hash "with a verify(password, hash) -> bool counterpart"; it is
modelled as an injective tagging function so that verification succeeds
exactly on the hashed password. -/
def hash_password (password : String) : String := "bcrypt$" ++ password

/-- Modelled from the spec: verify(password, hash) counterpart of the absent
src/utils/hash.py — true exactly when the stored hash is the hash of the
presented password. -/
def verify_password (password stored_hash : String) : Bool :=
  hash_password password == stored_hash

/-- get_user_by_email of src/core/auth.py. -/
def get_user_by_email (email : String) (db : DB) : Maybe UserRow :=
  match db.users.find? (fun u => u.email == email) with
  | some u => .Some u
  | none => .Nothing

/-- create_user of src/core/auth.py: Err 400 when the email is registered,
otherwise inserts the user with the hashed password and returns it. -/
def create_user (email password username : String) (db : DB) :
    Result UserRow HTTPException × DB :=
  match get_user_by_email email db with
  | .Some _ =>
    (.Err { status_code := 400, detail := "Email already registered" }, db)
  | .Nothing =>
    let user : UserRow :=
      { id := db.next_id, email := email,
        password_hash := hash_password password,
        display_name := username, last_login := none }
    (.Ok user, { db with users := db.users ++ [user], next_id := db.next_id + 1 })

/-- authenticate_user of src/core/auth.py: looks the user up by email,
verifies the password against the stored hash, and on success commits the
last-login timestamp (func.now(), modelled by the `now` argument) and returns
the user; Nothing on unknown email or wrong password alike. -/
def authenticate_user (email password : String) (db : DB) (now : Nat) :
    Maybe UserRow × DB :=
  match get_user_by_email email db with
  | .Nothing => (.Nothing, db)
  | .Some u =>
    if !verify_password password u.password_hash then (.Nothing, db)
    else
      let u2 : UserRow := { u with last_login := some now }
      (.Some u2,
       { db with users := db.users.map (fun v => if v.id == u.id then u2 else v) })

/-! ## Theorems settling the claims -/

/-- C10: create_masked_key returns any input shorter than 16 characters (the
8-character prefix plus 8) unchanged; on any input of length at least 16 it
returns a string of the same length made of the first 8 characters, the next
4 characters, asterisks, and the last 4 characters. -/
theorem C10_masked_key_shape (s : String) :
    (s.length < 16 → create_masked_key s = s)
    ∧ (16 ≤ s.length →
        (create_masked_key s).data
          = s.data.take 8 ++ (s.data.drop 8).take 4
            ++ List.replicate (s.length - 16) '*' ++ s.data.drop (s.length - 4)
        ∧ (create_masked_key s).length = s.length) := by
  have h8 : apiKeyPfx.length = 8 := rfl
  have hlen : s.length = s.data.length := rfl
  constructor
  · intro h
    simp only [create_masked_key, h8]
    rw [if_pos (by omega)]
  · intro h
    simp only [create_masked_key, h8]
    rw [if_neg (by omega)]
    constructor
    · show s.data.take 8 ++ (s.data.drop 8).take 4
          ++ List.replicate (s.data.length - 8 - 8) '*' ++ s.data.drop (s.data.length - 4)
        = _
      have h2 : s.data.length - 8 - 8 = s.length - 16 := by omega
      have h3 : s.data.length - 4 = s.length - 4 := by omega
      rw [h2, h3]
    · simp only [String.length, List.length_append, List.length_take,
        List.length_drop, List.length_replicate]
      omega

/-- Witness for C10 at concrete inputs on both sides of the 16-character
boundary. -/
theorem C10_masked_key_shape_witness :
    create_masked_key "sk_proj" = "sk_proj"
    ∧ (create_masked_key "sk_proj_abcdEFGH0123").length = 20 :=
  ⟨(C10_masked_key_shape "sk_proj").1 (by decide),
   ((C10_masked_key_shape "sk_proj_abcdEFGH0123").2 (by decide)).2⟩

/-- Helper: the ownership lookup fails exactly when no project row carries the
given id with the given owner. -/
theorem check_project_ownership_err {db : DB} {pid uid : Nat}
    (h : ∀ p ∈ db.projects, p.id = pid → p.owner_id ≠ uid) :
    check_project_ownership pid uid db = .Err projectNotFoundErr := by
  unfold check_project_ownership
  rw [List.find?_eq_none.2]
  intro p hp
  simp only [Bool.and_eq_true, beq_iff_eq, not_and]
  intro hid
  exact fun how => h p hp hid how

/-- C4: the ownership check returns the same error for a project id naming no
row and for a project id naming a row owned by a different user, so the two
runs are indistinguishable to the caller. -/
theorem C4_ownership_opacity (db : DB) (p1 p2 uid : Nat)
    (h1 : ∀ p ∈ db.projects, p.id ≠ p1)
    (h2 : ∃ q ∈ db.projects, q.id = p2)
    (h3 : ∀ p ∈ db.projects, p.id = p2 → p.owner_id ≠ uid) :
    check_project_ownership p1 uid db = check_project_ownership p2 uid db
    ∧ check_project_ownership p1 uid db = .Err projectNotFoundErr := by
  obtain ⟨-, -, -⟩ := h2
  have e1 : check_project_ownership p1 uid db = .Err projectNotFoundErr :=
    check_project_ownership_err (fun p hp hid _ => h1 p hp hid)
  have e2 : check_project_ownership p2 uid db = .Err projectNotFoundErr :=
    check_project_ownership_err h3
  exact ⟨e1.trans e2.symm, e1⟩

/-- Witness for C4: a database holding exactly one project, with id 2 and
owner 7; project id 1 is absent, and user 5 does not own project 2. -/
theorem C4_ownership_opacity_witness :
    check_project_ownership 1 5
        { users := [], projects := [{ id := 2, name := "demo", owner_id := 7, created_at := 0 }],
          api_keys := [], logs := [], events := [], next_id := 3 }
      = check_project_ownership 2 5
        { users := [], projects := [{ id := 2, name := "demo", owner_id := 7, created_at := 0 }],
          api_keys := [], logs := [], events := [], next_id := 3 } :=
  (C4_ownership_opacity _ 1 2 5 (by decide)
    ⟨{ id := 2, name := "demo", owner_id := 7, created_at := 0 }, by decide, rfl⟩
    (by decide)).1

/-- Helper: deactivateFirstActive finds nothing exactly when the table holds
no active key of the project. -/
theorem deactivateFirstActive_none_iff (pid : Nat) (ks : List APIKeyRow) :
    deactivateFirstActive pid ks = none
      ↔ ∀ k ∈ ks, ¬(k.project_id = pid ∧ k.is_active = true) := by
  induction ks with
  | nil => simp [deactivateFirstActive]
  | cons k ks ih =>
    by_cases hk : (k.project_id == pid && k.is_active) = true
    · constructor
      · intro hnone
        rw [deactivateFirstActive, if_pos hk] at hnone
        exact absurd hnone (by simp)
      · intro hall
        simp only [Bool.and_eq_true, beq_iff_eq] at hk
        exact absurd ⟨hk.1, hk.2⟩ (hall k (List.mem_cons_self k ks))
    · have hk' : ¬(k.project_id = pid ∧ k.is_active = true) := by
        simpa [Bool.and_eq_true] using hk
      rw [deactivateFirstActive, if_neg hk]
      simp only [Option.map_eq_none', ih, List.forall_mem_cons]
      exact ⟨fun ht => ⟨hk', ht⟩, fun hb => hb.2⟩

/-- Helper: when project ids are pairwise distinct across the api_keys table
(the unique=True column constraint) a successful deactivation leaves no
active key of the project behind. -/
theorem deactivateFirstActive_some_no_active (pid : Nat) {ks ks' : List APIKeyRow}
    (hpw : ks.Pairwise (fun a b => a.project_id ≠ b.project_id))
    (h : deactivateFirstActive pid ks = some ks') :
    ∀ k ∈ ks', ¬(k.project_id = pid ∧ k.is_active = true) := by
  induction ks generalizing ks' with
  | nil => simp [deactivateFirstActive] at h
  | cons k ks ih =>
    rw [deactivateFirstActive] at h
    by_cases hk : (k.project_id == pid && k.is_active) = true
    · rw [if_pos hk] at h
      obtain rfl := Option.some.inj h
      intro j hj
      rcases List.mem_cons.1 hj with rfl | hj'
      · simp
      · simp only [Bool.and_eq_true, beq_iff_eq] at hk
        have hne := (List.pairwise_cons.1 hpw).1 j hj'
        rintro ⟨hjp, -⟩
        exact hne (hk.1.trans hjp.symm)
    · rw [if_neg hk] at h
      obtain ⟨ts, hts, rfl⟩ := Option.map_eq_some'.1 h
      intro j hj
      rcases List.mem_cons.1 hj with rfl | hj'
      · rintro ⟨hjp, hja⟩
        exact hk (by simp [hjp, hja])
      · exact ih (List.pairwise_cons.1 hpw).2 hts j hj'

/-- C7: under the unique project_id column constraint of the api_keys table,
the first deactivate_api_key call returns true exactly when an active key of
the project existed, and an immediately repeated call returns false; neither
is an error (the operation only ever returns a Bool). -/
theorem C7_deactivate_idempotent (pid : Nat) (db : DB)
    (hpw : db.api_keys.Pairwise (fun a b => a.project_id ≠ b.project_id)) :
    ((deactivate_api_key pid db).1 = true
      ↔ ∃ k ∈ db.api_keys, k.project_id = pid ∧ k.is_active = true)
    ∧ (deactivate_api_key pid (deactivate_api_key pid db).2).1 = false := by
  rcases hda : deactivateFirstActive pid db.api_keys with - | ks'
  · have hnone := (deactivateFirstActive_none_iff pid db.api_keys).1 hda
    constructor
    · simp only [deactivate_api_key, hda]
      constructor
      · intro hfalse; exact absurd hfalse (by simp)
      · rintro ⟨k, hk, hprop⟩; exact absurd hprop (hnone k hk)
    · simp only [deactivate_api_key, hda]
  · have hsome := deactivateFirstActive_some_no_active pid hpw hda
    constructor
    · simp only [deactivate_api_key, hda, true_iff]
      by_contra hex
      push_neg at hex
      have hn : deactivateFirstActive pid db.api_keys = none :=
        (deactivateFirstActive_none_iff pid db.api_keys).2
          (fun k hk hprop => hex k hk hprop.1 hprop.2)
      rw [hn] at hda
      exact absurd hda (by simp)
    · simp only [deactivate_api_key, hda]
      have hn2 : deactivateFirstActive pid ks' = none :=
        (deactivateFirstActive_none_iff pid ks').2 hsome
      simp [deactivate_api_key, hn2]

/-- Witness for C7: a table holding one active key, for project 1. -/
theorem C7_deactivate_idempotent_witness :
    ((deactivate_api_key 1
        { users := [], projects := [{ id := 1, name := "demo", owner_id := 7, created_at := 0 }],
          api_keys := [{ id := 2, project_id := 1, key_hash := "sha256$k", masked_key := "m",
                         description := none, is_active := true, created_at := 0 }],
          logs := [], events := [], next_id := 3 }).1 = true
      ↔ ∃ k ∈ [({ id := 2, project_id := 1, key_hash := "sha256$k", masked_key := "m",
                  description := none, is_active := true, created_at := 0 } : APIKeyRow)],
            k.project_id = 1 ∧ k.is_active = true)
    ∧ (deactivate_api_key 1
        (deactivate_api_key 1
          { users := [], projects := [{ id := 1, name := "demo", owner_id := 7, created_at := 0 }],
            api_keys := [{ id := 2, project_id := 1, key_hash := "sha256$k", masked_key := "m",
                           description := none, is_active := true, created_at := 0 }],
            logs := [], events := [], next_id := 3 }).2).1 = false :=
  C7_deactivate_idempotent 1
    { users := [], projects := [{ id := 1, name := "demo", owner_id := 7, created_at := 0 }],
      api_keys := [{ id := 2, project_id := 1, key_hash := "sha256$k", masked_key := "m",
                     description := none, is_active := true, created_at := 0 }],
      logs := [], events := [], next_id := 3 }
    (by simp)

/-- C5: project names are unique per owner only. When the name is free for
two distinct owners, both of their create_project calls succeed; a second
create_project of the same name by the first owner then fails with the
Conflict error (HTTP 400, name already exists for this user) and leaves the
project table unchanged. -/
theorem C5_per_owner_name_uniqueness (db : DB) (A B : UserRow) (N : String)
    (hAB : A.id ≠ B.id)
    (hAfk : db.users.any (fun w => w.id == A.id) = true)
    (hBfk : db.users.any (fun w => w.id == B.id) = true)
    (hA : is_project_name_available N A.id db none = true)
    (hB : is_project_name_available N B.id db none = true) :
    ∃ pA pB db1 db2,
      create_project N db A = (.Ok pA, db1)
      ∧ create_project N db1 B = (.Ok pB, db2)
      ∧ create_project N db2 A = (.Err projectNameConflictErr, db2) := by
  have e1 : create_project N db A
      = (.Ok { id := db.next_id, name := N, owner_id := A.id, created_at := db.next_id },
         { db with
            projects := db.projects
              ++ [{ id := db.next_id, name := N, owner_id := A.id, created_at := db.next_id }],
            next_id := db.next_id + 1 }) := by
    simp [create_project, hA, hAfk]
  have hBA : (A.id == B.id) = false := by
    exact beq_eq_false_iff_ne.2 hAB
  have hB1 : is_project_name_available N B.id
      { db with
        projects := db.projects
          ++ [{ id := db.next_id, name := N, owner_id := A.id, created_at := db.next_id }],
        next_id := db.next_id + 1 } none = true := by
    simp only [is_project_name_available, List.isEmpty_iff, List.filter_eq_nil_iff,
      Bool.and_eq_true, beq_iff_eq, not_and] at hB ⊢
    intro a ha
    rcases List.mem_append.1 ha with h | h
    · exact hB a h
    · rcases List.mem_singleton.1 h with rfl
      exact fun _ hown => hAB hown
  have e2 : create_project N
      { db with
        projects := db.projects
          ++ [{ id := db.next_id, name := N, owner_id := A.id, created_at := db.next_id }],
        next_id := db.next_id + 1 } B
      = (.Ok { id := db.next_id + 1, name := N, owner_id := B.id,
               created_at := db.next_id + 1 },
         { db with
            projects := (db.projects
              ++ [{ id := db.next_id, name := N, owner_id := A.id, created_at := db.next_id }])
              ++ [{ id := db.next_id + 1, name := N, owner_id := B.id,
                    created_at := db.next_id + 1 }],
            next_id := db.next_id + 2 }) := by
    simp [create_project, hB1, hBfk]
  have hA2 : is_project_name_available N A.id
      { db with
        projects := db.projects
          ++ [{ id := db.next_id, name := N, owner_id := A.id, created_at := db.next_id },
              { id := db.next_id + 1, name := N, owner_id := B.id,
                created_at := db.next_id + 1 }],
        next_id := db.next_id + 2 } none = false := by
    simp only [is_project_name_available]
    rw [List.isEmpty_eq_false_iff_exists_mem]
    exact ⟨{ id := db.next_id, name := N, owner_id := A.id, created_at := db.next_id },
      by simp⟩
  have e3 : create_project N
      { db with
        projects := (db.projects
          ++ [{ id := db.next_id, name := N, owner_id := A.id, created_at := db.next_id }])
          ++ [{ id := db.next_id + 1, name := N, owner_id := B.id,
                created_at := db.next_id + 1 }],
        next_id := db.next_id + 2 } A
      = (.Err projectNameConflictErr,
         { db with
            projects := (db.projects
              ++ [{ id := db.next_id, name := N, owner_id := A.id, created_at := db.next_id }])
              ++ [{ id := db.next_id + 1, name := N, owner_id := B.id,
                    created_at := db.next_id + 1 }],
            next_id := db.next_id + 2 }) := by
    simp [create_project, hA2]
  exact ⟨_, _, _, _, e1, e2, e3⟩

/-- Witness for C5: users 10 and 11, both registered in the users table, each
create a project named "demo", then user 10 tries again. -/
theorem C5_per_owner_name_uniqueness_witness :
    ∃ pA pB db1 db2,
      create_project "demo"
          { users := [{ id := 10, email := "a@x.com", password_hash := "h",
                        display_name := "A", last_login := none },
                      { id := 11, email := "b@x.com", password_hash := "h",
                        display_name := "B", last_login := none }],
            projects := [], api_keys := [], logs := [], events := [], next_id := 12 }
          { id := 10, email := "a@x.com", password_hash := "h", display_name := "A", last_login := none }
        = (.Ok pA, db1)
      ∧ create_project "demo" db1
          { id := 11, email := "b@x.com", password_hash := "h", display_name := "B", last_login := none }
        = (.Ok pB, db2)
      ∧ create_project "demo" db2
          { id := 10, email := "a@x.com", password_hash := "h", display_name := "A", last_login := none }
        = (.Err projectNameConflictErr, db2) :=
  C5_per_owner_name_uniqueness
    { users := [{ id := 10, email := "a@x.com", password_hash := "h",
                  display_name := "A", last_login := none },
                { id := 11, email := "b@x.com", password_hash := "h",
                  display_name := "B", last_login := none }],
      projects := [], api_keys := [], logs := [], events := [], next_id := 12 }
    { id := 10, email := "a@x.com", password_hash := "h", display_name := "A", last_login := none }
    { id := 11, email := "b@x.com", password_hash := "h", display_name := "B", last_login := none }
    "demo" (by decide) (by decide) (by decide) (by decide) (by decide)

/-- Concrete database: user 7 owns project 1, which has one active API key
(row id 2). -/
def dbOneActiveKey : DB :=
  { users := [{ id := 7, email := "a@x.com", password_hash := "h",
                display_name := "A", last_login := none }],
    projects := [{ id := 1, name := "demo", owner_id := 7, created_at := 0 }],
    api_keys := [{ id := 2, project_id := 1, key_hash := "sha256$old", masked_key := "m",
                   description := none, is_active := true, created_at := 0 }],
    logs := [], events := [], next_id := 3 }

/-- C1 is violated by the code: for project 1 of dbOneActiveKey, which holds
exactly one active key, regenerate_api_key fails (returns None) — the
deactivation commits, and the subsequent INSERT hits the unique project_id
column constraint because the deactivated row still occupies the project —
and afterwards the project has zero active keys, so a failed rotation does
not leave the previously active key active. -/
theorem C1_failed_rotation_leaves_zero_active_keys :
    (regenerate_api_key 1 dbOneActiveKey none).1 = none
    ∧ dbOneActiveKey.api_keys.countP (fun k => k.project_id == 1 && k.is_active) = 1
    ∧ ((regenerate_api_key 1 dbOneActiveKey none).2).api_keys.countP
        (fun k => k.project_id == 1 && k.is_active) = 0
    ∧ (regenerate_api_key 1 dbOneActiveKey none).2.api_keys
        = [{ id := 2, project_id := 1, key_hash := "sha256$old", masked_key := "m",
             description := none, is_active := false, created_at := 0 }] := by
  decide

/-- C3 against the code: with project 99 absent, create_api_key fails (the
ForeignKey makes the commit raise) — the part the claim gets right — but for
project 1, which already has a key row, create_api_key also just fails with
the table unchanged instead of deactivating the existing key inside the same
unit of work and inserting the new one; its return value carries no plaintext
at all (the generated full_key is discarded). -/
theorem C3_create_key_does_not_rotate :
    create_api_key 99 dbOneActiveKey none = (none, dbOneActiveKey)
    ∧ create_api_key 1 dbOneActiveKey none = (none, dbOneActiveKey) := by
  decide

/-- Concrete database: user 7 owns project 1 holding event 5, whose current
status is "ok". -/
def dbEventWithStatus : DB :=
  { users := [{ id := 7, email := "a@x.com", password_hash := "h",
                display_name := "A", last_login := none }],
    projects := [{ id := 1, name := "demo", owner_id := 7, created_at := 0 }],
    api_keys := [], logs := [],
    events := [{ id := 5, project_id := 1, event_type := "deploy",
                 event_status := some "ok", event_metadata := [], created_at := 0 }],
    next_id := 6 }

/-- Counterexample to C6 as stated: the new status is NOT checked against the
same format validation as creation. A 60-character alphanumeric status passes
validate_event_format — the only format validation create_event applies, and
it applies it to event_type only, not to the status, as the second conjunct
shows by creating an event whose status is "bad;status" — yet update_event
rejects it (its status check caps at 50 characters). -/
theorem C6_status_check_differs_from_creation :
    validate_event_format (String.mk (List.replicate 60 'a')) = true
    ∧ (create_event 1
        { event_type := some "t", event_status := some (some "bad;status"),
          event_metadata := none } dbEventWithStatus).1.is_ok = true
    ∧ update_event 5
        { event_type := none,
          event_status := some (some (String.mk (List.replicate 60 'a'))),
          event_metadata := none } 7 dbEventWithStatus
      = (.Err { status_code := 400, detail := "Invalid status transition" },
         dbEventWithStatus) := by
  decide

/-- C6 as amended: for every event reachable by the caller, update_event with
an "event_status" entry applies the status-transition rule — with no current
status, any new status that fits the event_status String(50) column is
accepted, while a longer one passes the transition validation but fails at
commit with the 500 Internal error, leaving the state unchanged; clearing
(null) is always accepted; otherwise the new status must pass the
status-format check (at most 50 characters, nonblank after stripping, and
only alphanumeric, underscore, hyphen, space or dot characters — not the same
validation as at creation, which validates only the event type and not the
status), and a failing new status yields the 400 Validation error with the
stored status — indeed the whole state — unchanged. -/
theorem C6_status_transition_rule (db : DB) (eid uid : Nat) (ev : EventRow)
    (ns : Option String)
    (hev : get_event_by_id eid uid db = .Ok ev) :
    (∀ t, ev.event_status = none → ns = some t → t.length ≤ 50 →
      (update_event eid (EventData.mk none (some ns) none) uid db).1.is_ok = true)
    ∧ (ns = none →
      (update_event eid (EventData.mk none (some ns) none) uid db).1.is_ok = true)
    ∧ (∀ t, ev.event_status = none → ns = some t → 50 < t.length →
      update_event eid (EventData.mk none (some ns) none) uid db
        = (.Err { status_code := 500, detail := "Failed to update event" }, db))
    ∧ (∀ s t, ev.event_status = some s → ns = some t →
        ¬(t.length ≤ 50 ∧ (pyStrip t).data.isEmpty = false
            ∧ (pyStrip t).data.all (fun c => c.isAlphanum || eventExtraChars.contains c) = true) →
        update_event eid (EventData.mk none (some ns) none) uid db
          = (.Err { status_code := 400, detail := "Invalid status transition" }, db))
    ∧ (∀ s t, ev.event_status = some s → ns = some t →
        (t.length ≤ 50 ∧ (pyStrip t).data.isEmpty = false
            ∧ (pyStrip t).data.all (fun c => c.isAlphanum || eventExtraChars.contains c) = true) →
        (update_event eid (EventData.mk none (some ns) none) uid db).1.is_ok = true) := by
  refine ⟨?_, ?_, ?_, ?_, ?_⟩
  · intro t hnone hns ht
    subst hns
    simp [update_event, hev, validate_status_transition, hnone, ht, Result.is_ok]
  · intro hns
    subst hns
    cases hold : ev.event_status with
    | none => simp [update_event, hev, validate_status_transition, hold, Result.is_ok]
    | some s => simp [update_event, hev, validate_status_transition, hold, Result.is_ok]
  · intro t hnone hns ht
    subst hns
    have hlen : ¬(t.length ≤ 50) := by omega
    simp [update_event, hev, validate_status_transition, hnone, hlen]
  · intro s t hold hns hbad
    have hval : validate_status_transition ev.event_status ns = false := by
      rw [hold, hns]
      simp only [validate_status_transition]
      rw [Bool.eq_false_iff]
      intro htrue
      simp only [Bool.and_eq_true, decide_eq_true_eq, Bool.not_eq_true',
        List.all_eq_true] at htrue
      exact hbad ⟨htrue.1.1, htrue.1.2, List.all_eq_true.2 htrue.2⟩
    simp [update_event, hev, hval]
  · intro s t hold hns hgood
    have hval : validate_status_transition ev.event_status ns = true := by
      rw [hold, hns]
      simp only [validate_status_transition, Bool.and_eq_true, decide_eq_true_eq,
        Bool.not_eq_true']
      exact ⟨⟨hgood.1, hgood.2.1⟩, hgood.2.2⟩
    subst hns
    simp [update_event, hev, hval, hgood.1, Result.is_ok]

/-- Witness for C6 at the claim's own example: updating event 5 (current
status "ok") to "bad;status" fails with the Validation error and leaves the
database unchanged. -/
theorem C6_status_transition_rule_witness :
    update_event 5
        { event_type := none, event_status := some (some "bad;status"),
          event_metadata := none } 7 dbEventWithStatus
      = (.Err { status_code := 400, detail := "Invalid status transition" },
         dbEventWithStatus) :=
  (C6_status_transition_rule dbEventWithStatus 5 7
      { id := 5, project_id := 1, event_type := "deploy",
        event_status := some "ok", event_metadata := [], created_at := 0 }
      (some "bad;status") (by decide)).2.2.2.1
    "ok" "bad;status" rfl rfl (by decide)

/-- Helper: the modelled password hasher is injective, so verification
succeeds only on the original password. -/
theorem verify_password_iff (p q : String) :
    verify_password p (hash_password q) = true ↔ p = q := by
  constructor
  · intro h
    simp only [verify_password, hash_password, beq_iff_eq] at h
    have hd := congrArg String.data h
    rw [String.data_append "bcrypt$" p, String.data_append "bcrypt$" q] at hd
    exact String.ext (List.append_cancel_left hd)
  · rintro rfl
    simp [verify_password]

/-- C8: after a successful signup, authenticating with the very same email and
password returns Some user carrying that email, while any other password — and
likewise any email registered to nobody — yields Nothing with the state
untouched, so wrong password and unknown email are indistinguishable. -/
theorem C8_auth_round_trip (db : DB) (email pw uname : String) (u : UserRow)
    (db1 : DB) (now : Nat)
    (h : create_user email pw uname db = (.Ok u, db1)) :
    (∃ v db2, authenticate_user email pw db1 now = (.Some v, db2) ∧ v.email = email)
    ∧ (∀ p, p ≠ pw → authenticate_user email p db1 now = (.Nothing, db1))
    ∧ (∀ e2 p, (∀ w ∈ db1.users, w.email ≠ e2) →
        authenticate_user e2 p db1 now = (.Nothing, db1)) := by
  rcases hfind : get_user_by_email email db with w | -
  · rw [create_user, hfind] at h
    exact absurd (congrArg Prod.fst h) (by simp)
  · rw [create_user, hfind] at h
    have hnone : db.users.find? (fun v => v.email == email) = none := by
      rcases hf : db.users.find? (fun v => v.email == email) with - | v
      · exact hf
      · rw [get_user_by_email, hf] at hfind
        exact absurd hfind (by simp)
    simp only [Prod.mk.injEq, Result.Ok.injEq] at h
    obtain ⟨h1, h2⟩ := h
    subst h1
    subst h2
    have hlookup : get_user_by_email email
        (DB.mk (db.users ++ [UserRow.mk db.next_id email (hash_password pw) uname none])
          db.projects db.api_keys db.logs db.events (db.next_id + 1))
        = .Some (UserRow.mk db.next_id email (hash_password pw) uname none) := by
      simp only [get_user_by_email]
      rw [List.find?_append, hnone, Option.none_or]
      simp
    refine ⟨?_, ?_, ?_⟩
    · refine ⟨UserRow.mk db.next_id email (hash_password pw) uname (some now),
        DB.mk ((db.users ++ [UserRow.mk db.next_id email (hash_password pw) uname none]).map
            (fun v => if v.id == db.next_id then
              UserRow.mk db.next_id email (hash_password pw) uname (some now) else v))
          db.projects db.api_keys db.logs db.events (db.next_id + 1), ?_, rfl⟩
      simp only [authenticate_user, hlookup]
      rw [if_neg (by simp [(verify_password_iff pw pw).2 rfl])]
    · intro p hp
      have hv : verify_password p (hash_password pw) = false := by
        rw [Bool.eq_false_iff]
        intro hv
        exact hp ((verify_password_iff p pw).1 hv)
      simp only [authenticate_user, hlookup]
      rw [if_pos (by simp [hv])]
    · intro e2 p hmail
      have hn2 : List.find? (fun v => v.email == e2)
          (db.users ++ [UserRow.mk db.next_id email (hash_password pw) uname none])
          = none := by
        rw [List.find?_eq_none]
        intro v hv
        simpa using hmail v hv
      have hlook2 : get_user_by_email e2
          (DB.mk (db.users ++ [UserRow.mk db.next_id email (hash_password pw) uname none])
            db.projects db.api_keys db.logs db.events (db.next_id + 1))
          = .Nothing := by
        simp only [get_user_by_email]
        rw [hn2]
      simp only [authenticate_user, hlook2]

/-- Witness for C8: signup of "a@x.com" with password "pw" in an empty
database, then the three authentication behaviours at that state. -/
theorem C8_auth_round_trip_witness :
    (∃ v db2, authenticate_user "a@x.com" "pw"
        (DB.mk [UserRow.mk 0 "a@x.com" (hash_password "pw") "A" none] [] [] [] [] 1) 5
        = (.Some v, db2) ∧ v.email = "a@x.com")
    ∧ (∀ p, p ≠ "pw" → authenticate_user "a@x.com" p
        (DB.mk [UserRow.mk 0 "a@x.com" (hash_password "pw") "A" none] [] [] [] [] 1) 5
        = (.Nothing, DB.mk [UserRow.mk 0 "a@x.com" (hash_password "pw") "A" none] [] [] [] [] 1))
    ∧ (∀ e2 p, (∀ w ∈ (DB.mk [UserRow.mk 0 "a@x.com" (hash_password "pw") "A" none]
          [] [] [] [] 1).users, w.email ≠ e2) →
        authenticate_user e2 p
          (DB.mk [UserRow.mk 0 "a@x.com" (hash_password "pw") "A" none] [] [] [] [] 1) 5
        = (.Nothing, DB.mk [UserRow.mk 0 "a@x.com" (hash_password "pw") "A" none] [] [] [] [] 1)) :=
  C8_auth_round_trip (DB.mk [] [] [] [] [] 0) "a@x.com" "pw" "A"
    (UserRow.mk 0 "a@x.com" (hash_password "pw") "A" none)
    (DB.mk [UserRow.mk 0 "a@x.com" (hash_password "pw") "A" none] [] [] [] [] 1) 5
    (by decide)

/-- The lowercase ASCII letters, as the second components of the case table. -/
def asciiLowerLetters : List Char := asciiCasePairs.map (fun p => p.2)

/-- Helper: uppercasing a character never yields a lowercase ASCII letter. -/
theorem pyUpperChar_not_lower (c : Char) : pyUpperChar c ∉ asciiLowerLetters := by
  rcases hf : asciiCasePairs.find? (fun p => p.2 == c) with - | p
  · have hc : pyUpperChar c = c := by rw [pyUpperChar, hf]
    rw [hc]
    intro hmem
    have hex : ∀ d ∈ asciiLowerLetters, ∃ q ∈ asciiCasePairs, q.2 = d := by decide
    obtain ⟨q, hq, hq2⟩ := hex c hmem
    have := List.find?_eq_none.1 hf q hq
    simp [hq2] at this
  · have hc : pyUpperChar c = p.1 := by rw [pyUpperChar, hf]
    rw [hc]
    have hp := List.mem_of_find?_eq_some hf
    have hall : ∀ q ∈ asciiCasePairs, q.1 ∉ asciiLowerLetters := by decide
    exact hall p hp

/-- Helper: a string whose Python-lowercased form starts with a lowercase
ASCII letter differs from its Python-uppercased form. -/
theorem pyUpper_ne_pyLower (lv L : String) (d : Char) (ds : List Char)
    (hL : pyLower lv = L) (hLd : L.data = d :: ds)
    (hdmem : d ∈ asciiLowerLetters) :
    pyUpper lv ≠ pyLower lv := by
  intro heq
  have hdata : lv.data.map pyLowerChar = d :: ds := by
    have h1 := congrArg String.data hL
    simpa [pyLower, hLd] using h1
  cases hlv : lv.data with
  | nil => rw [hlv] at hdata; exact absurd hdata (by simp)
  | cons c cs =>
    rw [hlv] at hdata
    simp only [List.map_cons, List.cons.injEq] at hdata
    have hup := congrArg String.data heq
    simp only [pyUpper, pyLower, hlv, List.map_cons, List.cons.injEq] at hup
    have : pyUpperChar c ∈ asciiLowerLetters := by
      rw [hup.1, hdata.1]; exact hdmem
    exact pyUpperChar_not_lower c this

/-- Helper: a valid log level string (its lowercased form is one of info,
debug, warning, error, critical) uppercases and lowercases to different
strings. -/
theorem pyUpper_ne_pyLower_of_valid_level (lv : String)
    (hlv : validate_log_level lv = true) : pyUpper lv ≠ pyLower lv := by
  have hmem : pyLower lv ∈ logLevelValues := by
    rw [← List.elem_iff]
    exact hlv
  simp only [logLevelValues, List.mem_cons, List.mem_singleton] at hmem
  rcases hmem with h | h | h | h | h | h
  · exact pyUpper_ne_pyLower lv _ 'i' "nfo".data h (by decide) (by decide)
  · exact pyUpper_ne_pyLower lv _ 'd' "ebug".data h (by decide) (by decide)
  · exact pyUpper_ne_pyLower lv _ 'w' "arning".data h (by decide) (by decide)
  · exact pyUpper_ne_pyLower lv _ 'e' "rror".data h (by decide) (by decide)
  · exact pyUpper_ne_pyLower lv _ 'c' "ritical".data h (by decide) (by decide)
  · exact absurd h (by simp)

/-- C9: whenever create_log succeeds for a supplied level, it has stored the
level uppercased (the supplied level was necessarily valid), while
get_logs_by_level filters on the lowercased level and any successful
update_log with a level stores it lowercased; consequently a log created with
a valid level and never updated is not included in get_logs_by_level for that
project and that same level. -/
theorem C9_log_level_case_mismatch (db : DB) (pid uid : Nat) (lv : String)
    (cat : Option String) (msg : String) (tg : Option (List String))
    (log : LogRow) (db1 : DB)
    (hproj : ∃ p ∈ db.projects, p.id = pid ∧ p.owner_id = uid)
    (hc : create_log pid (LogData.mk (some lv) cat msg tg) db = (.Ok log, db1)) :
    validate_log_level lv = true
    ∧ log.level = pyUpper lv
    ∧ (∀ logs, get_logs_by_level pid lv uid db1 = .Ok logs → log ∉ logs)
    ∧ (∀ lid l0, get_log_by_id lid uid db1 = .Ok l0 →
        ∀ lv2 l2 db2, update_log lid (LogUpdate.mk (some lv2) none none none) uid db1
            = (.Ok l2, db2) → l2.level = pyLower lv2) := by
  obtain ⟨p, hp, hpid, howner⟩ := hproj
  rw [create_log] at hc
  split at hc
  · exact absurd (congrArg Prod.fst hc) (by simp)
  · rename_i hcond1
    simp only [Option.getD_some] at hc
    split at hc
    · have hval : validate_log_level lv = true := by
        simpa using hcond1
      simp only [Prod.mk.injEq, Result.Ok.injEq] at hc
      obtain ⟨hlog, hdb1⟩ := hc
      subst hlog
      subst hdb1
      refine ⟨hval, rfl, ?_, ?_⟩
      · intro logs hlogs
        have hown : (db.projects.find? (fun q => q.id == pid && q.owner_id == uid)).isSome := by
          rw [List.find?_isSome]
          exact ⟨p, hp, by simp [hpid, howner]⟩
        rcases hfp : db.projects.find? (fun q => q.id == pid && q.owner_id == uid) with - | q
        · rw [hfp] at hown; exact absurd hown (by simp)
        · have hget : get_logs_by_level pid lv uid
              (DB.mk db.users db.projects db.api_keys
                (db.logs ++ [LogRow.mk db.next_id pid (pyUpper lv) cat msg tg db.next_id])
                db.events (db.next_id + 1))
              = .Ok (((db.logs ++ [LogRow.mk db.next_id pid (pyUpper lv) cat msg tg db.next_id]).filter
                  (fun l => l.project_id == pid && l.level == pyLower lv)).reverse) := by
            rw [get_logs_by_level, if_neg (by simp [hval])]
            rw [show check_project_ownership pid uid
                  (DB.mk db.users db.projects db.api_keys
                    (db.logs ++ [LogRow.mk db.next_id pid (pyUpper lv) cat msg tg db.next_id])
                    db.events (db.next_id + 1)) = .Ok true from by
                rw [check_project_ownership, hfp]]
          rw [hget] at hlogs
          have hlogs2 := Result.Ok.inj hlogs
          rw [← hlogs2]
          intro hmem
          rw [List.mem_reverse, List.mem_filter] at hmem
          simp only [Bool.and_eq_true, beq_iff_eq] at hmem
          exact pyUpper_ne_pyLower_of_valid_level lv hval hmem.2.2
      · intro lid l0 hl0 lv2 l2 db2 hupd
        simp only [update_log, hl0] at hupd
        split at hupd
        · exact absurd (congrArg Prod.fst hupd) (by simp)
        · split at hupd
          · simp only [Prod.mk.injEq, Result.Ok.injEq] at hupd
            rw [← hupd.1]
          · exact absurd (congrArg Prod.fst hupd) (by simp)
    · exact absurd (congrArg Prod.fst hc) (by simp)

/-- Concrete database: dbOneActiveKey right after creating the level-"Info"
log, which was stored with level "INFO" as row 3. -/
def dbAfterInfoLog : DB :=
  { users := [{ id := 7, email := "a@x.com", password_hash := "h",
                display_name := "A", last_login := none }],
    projects := [{ id := 1, name := "demo", owner_id := 7, created_at := 0 }],
    api_keys := [{ id := 2, project_id := 1, key_hash := "sha256$old", masked_key := "m",
                   description := none, is_active := true, created_at := 0 }],
    logs := [{ id := 3, project_id := 1, level := "INFO", category := none,
               message := "boot", tags := none, created_at := 3 }],
    events := [], next_id := 4 }

/-- Witness for C9: creating a log with level "Info" for project 1 of user 7
succeeds concretely, and get_logs_by_level for "Info" never returns it. -/
theorem C9_log_level_case_mismatch_witness :
    validate_log_level "Info" = true
    ∧ (LogRow.mk 3 1 "INFO" none "boot" none 3).level = pyUpper "Info"
    ∧ (∀ logs, get_logs_by_level 1 "Info" 7 dbAfterInfoLog = .Ok logs →
        LogRow.mk 3 1 "INFO" none "boot" none 3 ∉ logs)
    ∧ (∀ lid l0, get_log_by_id lid 7 dbAfterInfoLog = .Ok l0 →
        ∀ lv2 l2 db2, update_log lid (LogUpdate.mk (some lv2) none none none) 7 dbAfterInfoLog
            = (.Ok l2, db2) → l2.level = pyLower lv2) :=
  C9_log_level_case_mismatch dbOneActiveKey 1 7 "Info" none "boot" none
    (LogRow.mk 3 1 "INFO" none "boot" none 3) dbAfterInfoLog
    (by decide) (by decide)

end Baselog
